import Mathlib

/-!
Shallow embedding of the request authentication and abuse-mitigation pipeline
of `src/index.js` (weather-on-route-api): session issuance
(`POST /api/auth/session`), the `validateRequest` middleware guarding
`POST /api/proxy/:service`, the honeypot endpoints, and the periodic token
cleanup (`setInterval`).  Timestamps are milliseconds (`Date.now()`); the JWT
library works at second granularity (`Math.floor(ms / 1000)`), which the
embedding reproduces.  The JWT encode/decode and the HMAC-SHA256 primitive are
external libraries (`jsonwebtoken`, `crypto-js`); they enter the model as
components of an `Env` record, so every theorem about the pipeline's control
flow holds for an arbitrary implementation of those primitives.
-/

namespace Gate

/-- Accumulator-based splitting of a character list at space characters,
mirroring JS `String.prototype.split(' ')` (adjacent separators yield empty
fragments, and the result is never empty). -/
def splitSpaceAux : List Char → List Char → List (List Char)
  | [], acc => [acc.reverse]
  | c :: cs, acc =>
    if c = ' ' then acc.reverse :: splitSpaceAux cs []
    else splitSpaceAux cs (c :: acc)

/-- JS `s.split(' ')`. -/
def jsSplitSpace (s : String) : List String :=
  (splitSpaceAux s.data []).map String.mk

/-- Bool test that the first list is an initial segment of the second. -/
def startsWithChars : List Char → List Char → Bool
  | [], _ => true
  | _ :: _, [] => false
  | a :: as, b :: bs => a == b && startsWithChars as bs

/-- Bool test that `pat` occurs as a contiguous run inside the second list. -/
def containsChars (pat : List Char) : List Char → Bool
  | [] => startsWithChars pat []
  | c :: rest => startsWithChars pat (c :: rest) || containsChars pat rest

/-- JS `s.includes(pat)`. -/
def jsIncludes (s pat : String) : Bool :=
  containsChars pat.data s.data

/-- `config.SESSION_TOKEN_EXPIRY` (seconds). -/
def SESSION_TOKEN_EXPIRY : Nat := 3600

/-- The token TTL in milliseconds, as used by the cleanup sweep
(`config.SESSION_TOKEN_EXPIRY * 1000`). -/
def ttlMs : Nat := SESSION_TOKEN_EXPIRY * 1000

/-- `config.HONEYPOT_ENDPOINTS`. -/
def HONEYPOT_ENDPOINTS : List String :=
  ["/api/v1/internal/config", "/api/data/raw", "/api/system/status"]

/-- The trusted-referrer substring checked by the session issuance handler. -/
def frontendDomain : String := "your-frontend-domain.com"

/-- A decoded JWT as produced by `jwt.sign({sessionId}, secret, {expiresIn})`:
`exp` is an absolute expiry in seconds, and `secret` stands for the key the
token's signature verifies against. -/
structure Jwt where
  sessionId : String
  exp : Nat
  secret : String
deriving DecidableEq

/-- `jwt.sign({ sessionId }, secret, { expiresIn: SESSION_TOKEN_EXPIRY })`
called at millisecond time `nowMs`: `jsonwebtoken` sets
`exp = Math.floor(nowMs / 1000) + expiresIn`. -/
def jwtSign (sessionId secret : String) (nowMs : Nat) : Jwt :=
  ⟨sessionId, nowMs / 1000 + SESSION_TOKEN_EXPIRY, secret⟩

/-- `jwt.verify(token, secret)` on an already-decoded token at millisecond
time `nowMs`: it fails on a key mismatch, and `jsonwebtoken` raises
`TokenExpiredError` exactly when `Math.floor(nowMs / 1000) >= exp`. -/
def jwtVerifyTok (t : Jwt) (secret : String) (nowMs : Nat) : Option String :=
  if t.secret = secret ∧ nowMs / 1000 < t.exp then some t.sessionId else none

/-- External-library surface: the two configured secrets, the HMAC-SHA256
primitive of `crypto-js` (message, key ↦ hex digest), and the JWT string
decoder of `jsonwebtoken` (malformed or badly-signed strings decode to
`none` or to a token whose `secret` differs from the verification key). -/
structure Env where
  jwtSecret : String
  apiSecret : String
  hmacSHA256 : String → String → String
  parseJwt : String → Option Jwt

/-- `jwt.verify(tokenString, config.JWT_SECRET)` at millisecond time `nowMs`. -/
def jwtVerifyStr (env : Env) (tok : String) (nowMs : Nat) : Option String :=
  match env.parseJwt tok with
  | none => none
  | some t => jwtVerifyTok t env.jwtSecret nowMs

/-- A `RateLimiterMemory` configuration: `points` ops per `durationMs` window,
with `blockDurationMs = 0` meaning no extended block. -/
structure RLConfig where
  points : Nat
  durationMs : Nat
  blockDurationMs : Nat
deriving DecidableEq

/-- Per-key limiter record: points consumed in the current window, the
window's start time, and `blockedUntil` (0 = not blocked). -/
structure RLEntry where
  consumed : Nat
  windowStart : Nat
  blockedUntil : Nat
deriving DecidableEq

/-- An absent record, or one whose window has elapsed, restarts the rolling
window at `now` before the consumption is counted. -/
def normalizeEntry (cfg : RLConfig) (now : Nat) : Option RLEntry → RLEntry
  | none => ⟨0, now, 0⟩
  | some e => if e.windowStart + cfg.durationMs ≤ now then ⟨0, now, e.blockedUntil⟩ else e

/-- Consumption against a current-window record: a live block rejects
immediately; otherwise the counter is incremented and the call succeeds
exactly when the budget is not exceeded, setting `blockedUntil` when it is
exceeded and a block duration is configured. -/
def consumeEntry (cfg : RLConfig) (now : Nat) (e : RLEntry) : Bool × RLEntry :=
  if 0 < e.blockedUntil ∧ now < e.blockedUntil then
    (false, e)
  else if e.consumed + 1 ≤ cfg.points then
    (true, ⟨e.consumed + 1, e.windowStart, 0⟩)
  else
    (false, ⟨e.consumed + 1, e.windowStart,
      if 0 < cfg.blockDurationMs then now + cfg.blockDurationMs else e.blockedUntil⟩)

/-- `limiter.consume(key)` for the key whose stored record is `e?` at time
`now`. -/
def consumeOpt (cfg : RLConfig) (now : Nat) (e? : Option RLEntry) : Bool × RLEntry :=
  consumeEntry cfg now (normalizeEntry cfg now e?)

/-- `globalRateLimiter`: 100 points / 60 s, no block duration. -/
def globalCfg : RLConfig := ⟨100, 60000, 0⟩

/-- `authRateLimiter`: 5 points / 60 s, 300 s block. -/
def authCfg : RLConfig := ⟨5, 60000, 300000⟩

/-- The per-session `RateLimiterMemory`: 50 points / 60 s, 60 s block. -/
def sessionCfg : RLConfig := ⟨50, 60000, 60000⟩

/-- A sequence of `consume` calls at the given times against one key,
returning the per-call outcomes and the final stored record. -/
def runConsumes (cfg : RLConfig) (e? : Option RLEntry) : List Nat → List Bool × Option RLEntry
  | [] => ([], e?)
  | t :: ts =>
    let r := consumeOpt cfg t e?
    let rest := runConsumes cfg (some r.2) ts
    (r.1 :: rest.1, rest.2)

/-- A value of `activeTokens`: the issued token, `created = Date.now()` at
issuance, and the recorded client fingerprint. -/
structure SessionInfo where
  token : Jwt
  created : Nat
  clientIp : String
  userAgent : String
deriving DecidableEq

/-- The process-wide mutable state: the two IP-keyed limiter stores, the
per-session limiter map (`sessionLimiters`; the inner `Option RLEntry` is the
single record of that session's dedicated limiter instance), the session
registry (`activeTokens`) and the blocklist (`config.BLOCKED_IPS`). -/
structure ServerState where
  globalRL : String → Option RLEntry
  authRL : String → Option RLEntry
  sessionLimiters : String → Option (Option RLEntry)
  activeTokens : String → Option SessionInfo
  blocked : String → Bool

/-- The state at process start: every store empty. -/
def initState : ServerState :=
  ⟨fun _ => none, fun _ => none, fun _ => none, fun _ => none, fun _ => false⟩

/-- `config.BLOCKED_IPS.add(ip)`. -/
def addBlocked (b : String → Bool) (ip : String) : String → Bool :=
  fun k => if k = ip then true else b k

/-- Store one key's record back into the global limiter. -/
def setGlobal (s : ServerState) (ip : String) (e : RLEntry) : ServerState :=
  { s with globalRL := fun k => if k = ip then some e else s.globalRL k }

/-- Store one key's record back into the auth limiter. -/
def setAuth (s : ServerState) (ip : String) (e : RLEntry) : ServerState :=
  { s with authRL := fun k => if k = ip then some e else s.authRL k }

/-- Store the record of one session's dedicated limiter. -/
def setSessionEntry (s : ServerState) (sid : String) (e : RLEntry) : ServerState :=
  { s with sessionLimiters := fun k => if k = sid then some (some e) else s.sessionLimiters k }

/-- The relevant inputs of a protected request as read by `validateRequest`:
`req.ip`, the `Authorization` header, the `session_token` cookie, the
`X-Request-Signature` and `X-Timestamp` headers, `req.originalUrl`, and the
serialized body `JSON.stringify(req.body)`.  Headers that the client did not
send are `none`; JS treats an empty-string header value as falsy. -/
structure GateRequest where
  ip : String
  authHeader : Option String
  cookie : Option String
  xSignature : Option String
  xTimestamp : Option String
  originalUrl : String
  bodyJson : String
deriving DecidableEq

/-- The terminal outcomes of `validateRequest`, one per distinct HTTP
response, plus `passed` for the call to `next()` with `req.sessionId` set.
Both limiter rejections surface through the same catch clause as 429. -/
inductive GateResult where
  | rateLimited
  | forbidden
  | unauthenticated
  | invalidToken
  | invalidSession
  | securityViolation
  | invalidSignature
  | passed (sessionId : String)
deriving DecidableEq

/-- `authHeader ? authHeader.split(' ')[1] : req.cookies.session_token`:
a truthy (non-empty) header yields its second space-separated part (which may
be absent), otherwise the cookie is used. -/
def extractToken (authHeader cookie : Option String) : Option String :=
  match authHeader with
  | some h => if h = "" then cookie else (jsSplitSpace h)[1]?
  | none => cookie

/-- `if (!token)`: an absent or empty-string token is rejected. -/
def tokenOrNone : Option String → Option String
  | some s => if s = "" then none else some s
  | none => none

/-- The signature `validateRequest` recomputes:
`HmacSHA256(timestamp + originalUrl + body + sessionId, API_SECRET)` where
`timestamp = req.headers['x-timestamp'] || ''`. -/
def expectedSignature (env : Env) (req : GateRequest) (sessionId : String) : String :=
  env.hmacSHA256 ((req.xTimestamp.getD "") ++ req.originalUrl ++ req.bodyJson ++ sessionId)
    env.apiSecret

/-- Step 8 of the pipeline: with no (or an empty, hence falsy)
`X-Request-Signature` header the check is skipped; otherwise the header must
equal the recomputed signature. -/
def signatureOk (env : Env) (req : GateRequest) (sessionId : String) : Bool :=
  match req.xSignature with
  | none => true
  | some sig => if sig = "" then true else sig = expectedSignature env req sessionId

/-- The `validateRequest` middleware: global limiter, blocklist, token
extraction, JWT verification, registry lookup, IP fingerprint, per-session
limiter, optional signature check, then `next()`. -/
def validateRequest (env : Env) (now : Nat) (req : GateRequest) (s : ServerState) :
    GateResult × ServerState :=
  let g := consumeOpt globalCfg now (s.globalRL req.ip)
  let s1 := setGlobal s req.ip g.2
  if !g.1 then (.rateLimited, s1)
  else if s1.blocked req.ip then (.forbidden, s1)
  else
    match tokenOrNone (extractToken req.authHeader req.cookie) with
    | none => (.unauthenticated, s1)
    | some tok =>
      match jwtVerifyStr env tok now with
      | none => (.invalidToken, s1)
      | some sid =>
        match s1.activeTokens sid with
        | none => (.invalidSession, s1)
        | some info =>
          if info.clientIp ≠ req.ip then
            (.securityViolation, { s1 with blocked := addBlocked s1.blocked req.ip })
          else
            match s1.sessionLimiters sid with
            | some entry =>
              let c := consumeOpt sessionCfg now entry
              let s2 := setSessionEntry s1 sid c.2
              if !c.1 then (.rateLimited, s2)
              else if signatureOk env req sid then (.passed sid, s2)
              else (.invalidSignature, s2)
            | none =>
              if signatureOk env req sid then (.passed sid, s1)
              else (.invalidSignature, s1)

/-- Outcomes of the `POST /api/auth/session` handler. -/
inductive IssueResult where
  | rateLimited
  | invalidReferrer
  | issued (token : Jwt)
deriving DecidableEq

/-- Inputs of the session issuance handler: `req.ip`, the `Referer` header,
and the `User-Agent` header. -/
structure IssueRequest where
  ip : String
  referrer : Option String
  userAgent : Option String
deriving DecidableEq

/-- The `POST /api/auth/session` handler: consume the auth limiter, then
check the referrer, then mint a session (`sid` stands for the `uuidv4()`
result), storing the record and a fresh per-session limiter instance. -/
def issueSession (env : Env) (now : Nat) (sid : String) (req : IssueRequest)
    (s : ServerState) : IssueResult × ServerState :=
  let a := consumeOpt authCfg now (s.authRL req.ip)
  let s1 := setAuth s req.ip a.2
  if !a.1 then (.rateLimited, s1)
  else if !(jsIncludes (req.referrer.getD "") frontendDomain) then (.invalidReferrer, s1)
  else
    let token := jwtSign sid env.jwtSecret now
    (.issued token,
      { s1 with
        activeTokens := fun k =>
          if k = sid then some ⟨token, now, req.ip, req.userAgent.getD ""⟩
          else s1.activeTokens k
        sessionLimiters := fun k =>
          if k = sid then some none else s1.sessionLimiters k })

/-- An HTTP response as far as the honeypot claims observe it. -/
structure HttpResponse where
  status : Nat
  body : String
deriving DecidableEq

/-- A honeypot hit (`app.all(endpoint, ...)`): the path and method are
accepted but ignored, the caller's IP is blocklisted, and a generic success
response is returned; no credential is consulted. -/
def honeypotHit (endpoint method ip : String) (s : ServerState) : HttpResponse × ServerState :=
  (⟨200, "status: ok"⟩, { s with blocked := addBlocked s.blocked ip })

/-- One pass of the cleanup `setInterval`: every registry entry whose age
exceeds the TTL is deleted together with its per-session limiter instance. -/
def reapTokens (now : Nat) (s : ServerState) : ServerState :=
  { s with
    activeTokens := fun sid =>
      match s.activeTokens sid with
      | some info => if info.created + ttlMs < now then none else some info
      | none => none
    sessionLimiters := fun sid =>
      match s.activeTokens sid with
      | some info => if info.created + ttlMs < now then none else s.sessionLimiters sid
      | none => s.sessionLimiters sid }

/-- The operations that touch the shared stores. -/
inductive Op where
  | issue (now : Nat) (sid : String) (req : IssueRequest)
  | gate (now : Nat) (req : GateRequest)
  | honeypot (endpoint method ip : String)
  | reap (now : Nat)

/-- The state transition of one operation. -/
def applyOp (env : Env) (s : ServerState) : Op → ServerState
  | .issue now sid req => (issueSession env now sid req s).2
  | .gate now req => (validateRequest env now req s).2
  | .honeypot e m ip => (honeypotHit e m ip s).2
  | .reap now => reapTokens now s

/-- Run a sequence of operations. -/
def runOps (env : Env) (s : ServerState) (ops : List Op) : ServerState :=
  ops.foldl (applyOp env) s

/-- A concrete environment used to instantiate the universally quantified
theorems: a toy keyed hash and a decoder recognising two token strings. -/
def envC : Env :=
  ⟨"jwt-secret", "api-secret",
    fun msg key => "h:" ++ msg ++ ":" ++ key,
    fun str =>
      if str = "tokA" then some ⟨"sidA", 1000000000, "jwt-secret"⟩
      else if str = "tokB" then some ⟨"sidB", 1000000000, "jwt-secret"⟩
      else none⟩

end Gate


namespace Gate

@[simp] theorem setGlobal_blocked (s : ServerState) (ip : String) (e : RLEntry) :
    (setGlobal s ip e).blocked = s.blocked := rfl

@[simp] theorem setGlobal_activeTokens (s : ServerState) (ip : String) (e : RLEntry) :
    (setGlobal s ip e).activeTokens = s.activeTokens := rfl

@[simp] theorem setGlobal_sessionLimiters (s : ServerState) (ip : String) (e : RLEntry) :
    (setGlobal s ip e).sessionLimiters = s.sessionLimiters := rfl

@[simp] theorem setGlobal_authRL (s : ServerState) (ip : String) (e : RLEntry) :
    (setGlobal s ip e).authRL = s.authRL := rfl

@[simp] theorem setSessionEntry_blocked (s : ServerState) (sid : String) (e : RLEntry) :
    (setSessionEntry s sid e).blocked = s.blocked := rfl

@[simp] theorem setSessionEntry_activeTokens (s : ServerState) (sid : String) (e : RLEntry) :
    (setSessionEntry s sid e).activeTokens = s.activeTokens := rfl

@[simp] theorem setSessionEntry_globalRL (s : ServerState) (sid : String) (e : RLEntry) :
    (setSessionEntry s sid e).globalRL = s.globalRL := rfl

@[simp] theorem setAuth_blocked (s : ServerState) (ip : String) (e : RLEntry) :
    (setAuth s ip e).blocked = s.blocked := rfl

@[simp] theorem setAuth_activeTokens (s : ServerState) (ip : String) (e : RLEntry) :
    (setAuth s ip e).activeTokens = s.activeTokens := rfl

@[simp] theorem setAuth_sessionLimiters (s : ServerState) (ip : String) (e : RLEntry) :
    (setAuth s ip e).sessionLimiters = s.sessionLimiters := rfl

theorem validateRequest_rl (env : Env) (now : Nat) (req : GateRequest) (s : ServerState)
    (hg : (consumeOpt globalCfg now (s.globalRL req.ip)).1 = false) :
    (validateRequest env now req s).1 = .rateLimited := by
  simp [validateRequest, hg]

theorem validateRequest_forbidden (env : Env) (now : Nat) (req : GateRequest) (s : ServerState)
    (hg : (consumeOpt globalCfg now (s.globalRL req.ip)).1 = true)
    (hb : s.blocked req.ip = true) :
    (validateRequest env now req s).1 = .forbidden := by
  simp [validateRequest, hg, hb]

theorem validateRequest_unauth (env : Env) (now : Nat) (req : GateRequest) (s : ServerState)
    (hg : (consumeOpt globalCfg now (s.globalRL req.ip)).1 = true)
    (hb : s.blocked req.ip = false)
    (ht : tokenOrNone (extractToken req.authHeader req.cookie) = none) :
    (validateRequest env now req s).1 = .unauthenticated := by
  simp [validateRequest, hg, hb, ht]

theorem validateRequest_invalidToken (env : Env) (now : Nat) (req : GateRequest) (s : ServerState)
    (tok : String)
    (hg : (consumeOpt globalCfg now (s.globalRL req.ip)).1 = true)
    (hb : s.blocked req.ip = false)
    (ht : tokenOrNone (extractToken req.authHeader req.cookie) = some tok)
    (hv : jwtVerifyStr env tok now = none) :
    (validateRequest env now req s).1 = .invalidToken := by
  simp [validateRequest, hg, hb, ht, hv]

theorem validateRequest_invalidSession (env : Env) (now : Nat) (req : GateRequest)
    (s : ServerState) (tok sid : String)
    (hg : (consumeOpt globalCfg now (s.globalRL req.ip)).1 = true)
    (hb : s.blocked req.ip = false)
    (ht : tokenOrNone (extractToken req.authHeader req.cookie) = some tok)
    (hv : jwtVerifyStr env tok now = some sid)
    (hs : s.activeTokens sid = none) :
    (validateRequest env now req s).1 = .invalidSession := by
  simp [validateRequest, hg, hb, ht, hv, hs]

theorem validateRequest_secViolation (env : Env) (now : Nat) (req : GateRequest)
    (s : ServerState) (tok sid : String) (info : SessionInfo)
    (hg : (consumeOpt globalCfg now (s.globalRL req.ip)).1 = true)
    (hb : s.blocked req.ip = false)
    (ht : tokenOrNone (extractToken req.authHeader req.cookie) = some tok)
    (hv : jwtVerifyStr env tok now = some sid)
    (hs : s.activeTokens sid = some info)
    (hip : info.clientIp ≠ req.ip) :
    (validateRequest env now req s).1 = .securityViolation
    ∧ ((validateRequest env now req s).2).blocked = addBlocked s.blocked req.ip := by
  constructor <;> simp [validateRequest, hg, hb, ht, hv, hs, hip]

theorem validateRequest_sigBranch (env : Env) (now : Nat) (req : GateRequest)
    (s : ServerState) (tok sid : String) (info : SessionInfo)
    (hg : (consumeOpt globalCfg now (s.globalRL req.ip)).1 = true)
    (hb : s.blocked req.ip = false)
    (ht : tokenOrNone (extractToken req.authHeader req.cookie) = some tok)
    (hv : jwtVerifyStr env tok now = some sid)
    (hs : s.activeTokens sid = some info)
    (hip : info.clientIp = req.ip)
    (hsl : ∀ e, s.sessionLimiters sid = some e → (consumeOpt sessionCfg now e).1 = true) :
    (validateRequest env now req s).1
      = if signatureOk env req sid then .passed sid else .invalidSignature := by
  cases hq : s.sessionLimiters sid with
  | none => simp [validateRequest, hg, hb, ht, hv, hs, hip, hq]; split <;> simp
  | some e =>
    have hc := hsl e hq
    simp [validateRequest, hg, hb, ht, hv, hs, hip, hq, hc]
    split <;> simp

end Gate

namespace Gate

theorem validateRequest_blocked_mono (env : Env) (now : Nat) (req : GateRequest)
    (s : ServerState) (ip : String) (h : s.blocked ip = true) :
    ((validateRequest env now req s).2).blocked ip = true := by
  simp only [validateRequest]
  repeat' split
  all_goals simp_all [setGlobal, setSessionEntry, addBlocked]

theorem issueSession_blocked (env : Env) (now : Nat) (sid : String) (req : IssueRequest)
    (s : ServerState) :
    ((issueSession env now sid req s).2).blocked = s.blocked := by
  simp only [issueSession]
  repeat' split
  all_goals rfl

theorem reapTokens_blocked (now : Nat) (s : ServerState) :
    (reapTokens now s).blocked = s.blocked := rfl

theorem honeypotHit_blocked (e m ip : String) (s : ServerState) :
    ((honeypotHit e m ip s).2).blocked = addBlocked s.blocked ip := rfl

theorem applyOp_blocked_mono (env : Env) (op : Op) (s : ServerState) (ip : String)
    (h : s.blocked ip = true) : (applyOp env s op).blocked ip = true := by
  cases op with
  | issue now sid req => rw [applyOp, issueSession_blocked]; exact h
  | gate now req => exact validateRequest_blocked_mono env now req s ip h
  | honeypot e m ip2 =>
    rw [applyOp, honeypotHit_blocked, addBlocked]
    split <;> simp_all
  | reap now => exact h

theorem runOps_blocked_mono (env : Env) (ops : List Op) (s : ServerState) (ip : String)
    (h : s.blocked ip = true) : (runOps env s ops).blocked ip = true := by
  induction ops generalizing s with
  | nil => exact h
  | cons op ops ih =>
    rw [runOps, List.foldl_cons]
    exact ih _ (applyOp_blocked_mono env op s ip h)

end Gate

namespace Gate

theorem validateRequest_activeTokens (env : Env) (now : Nat) (req : GateRequest)
    (s : ServerState) :
    ((validateRequest env now req s).2).activeTokens = s.activeTokens := by
  simp only [validateRequest]
  repeat' split
  all_goals rfl

theorem validateRequest_limiters_isSome (env : Env) (now : Nat) (req : GateRequest)
    (s : ServerState) (k : String) :
    (((validateRequest env now req s).2).sessionLimiters k).isSome
      = ((s.sessionLimiters k).isSome) := by
  simp only [validateRequest]
  repeat' split
  all_goals simp_all [setSessionEntry, setGlobal]
  all_goals split <;> simp_all

theorem issueSession_sessKeys (env : Env) (now : Nat) (sid : String) (req : IssueRequest)
    (s : ServerState)
    (h : ∀ k, (s.activeTokens k).isSome = (s.sessionLimiters k).isSome) (k : String) :
    ((((issueSession env now sid req s).2).activeTokens k).isSome)
      = ((((issueSession env now sid req s).2).sessionLimiters k).isSome) := by
  simp only [issueSession]
  repeat' split
  · exact h k
  · exact h k
  · by_cases hk : k = sid <;> simp [hk, h k]

theorem reapTokens_sessKeys (now : Nat) (s : ServerState)
    (h : ∀ k, (s.activeTokens k).isSome = (s.sessionLimiters k).isSome) (k : String) :
    (((reapTokens now s).activeTokens k).isSome)
      = (((reapTokens now s).sessionLimiters k).isSome) := by
  simp only [reapTokens]
  cases hq : s.activeTokens k with
  | none => have := h k; simp_all
  | some info =>
    have hk := h k
    rw [hq] at hk
    by_cases hexp : info.created + ttlMs < now
    · simp only [hq, if_pos hexp]
      rfl
    · simp only [hq, if_neg hexp]
      exact hk

theorem applyOp_sessKeys (env : Env) (op : Op) (s : ServerState)
    (h : ∀ k, (s.activeTokens k).isSome = (s.sessionLimiters k).isSome) (k : String) :
    (((applyOp env s op).activeTokens k).isSome)
      = (((applyOp env s op).sessionLimiters k).isSome) := by
  cases op with
  | issue now sid req => exact issueSession_sessKeys env now sid req s h k
  | gate now req =>
    simp only [applyOp]
    rw [validateRequest_activeTokens, validateRequest_limiters_isSome]
    exact h k
  | honeypot e m ip => exact h k
  | reap now => exact reapTokens_sessKeys now s h k

theorem runOps_sessKeys (env : Env) (ops : List Op) (s : ServerState)
    (h : ∀ k, (s.activeTokens k).isSome = (s.sessionLimiters k).isSome) (k : String) :
    (((runOps env s ops).activeTokens k).isSome)
      = (((runOps env s ops).sessionLimiters k).isSome) := by
  induction ops generalizing s with
  | nil => exact h k
  | cons op ops ih =>
    rw [runOps, List.foldl_cons]
    exact ih _ (applyOp_sessKeys env op s h)

end Gate

namespace Gate

theorem consumeOpt_global_entry (k t1 t : Nat) (ht : t < t1 + 60000) :
    (consumeOpt globalCfg t (some ⟨k, t1, 0⟩)).2 = ⟨k + 1, t1, 0⟩ := by
  have h1 : normalizeEntry globalCfg t (some ⟨k, t1, 0⟩) = ⟨k, t1, 0⟩ := by
    simp only [normalizeEntry, globalCfg]
    exact if_neg (by omega)
  rw [consumeOpt, h1, consumeEntry]
  rw [if_neg (by simp)]
  split <;> simp [globalCfg]

theorem consumeOpt_global_ok (k t1 t : Nat) (ht : t < t1 + 60000) (hb : k + 1 ≤ 100) :
    (consumeOpt globalCfg t (some ⟨k, t1, 0⟩)).1 = true := by
  have h1 : normalizeEntry globalCfg t (some ⟨k, t1, 0⟩) = ⟨k, t1, 0⟩ := by
    simp only [normalizeEntry, globalCfg]
    exact if_neg (by omega)
  rw [consumeOpt, h1, consumeEntry]
  rw [if_neg (by simp)]
  rw [if_pos (by simpa [globalCfg] using hb)]

theorem consumeOpt_global_fail (k t1 t : Nat) (ht : t < t1 + 60000) (hb : ¬ k + 1 ≤ 100) :
    (consumeOpt globalCfg t (some ⟨k, t1, 0⟩)).1 = false := by
  have h1 : normalizeEntry globalCfg t (some ⟨k, t1, 0⟩) = ⟨k, t1, 0⟩ := by
    simp only [normalizeEntry, globalCfg]
    exact if_neg (by omega)
  rw [consumeOpt, h1, consumeEntry]
  rw [if_neg (by simp)]
  rw [if_neg (by simpa [globalCfg] using hb)]

theorem consumeOpt_fresh (cfg : RLConfig) (t : Nat) (hp : 0 < cfg.points) :
    consumeOpt cfg t none = (true, ⟨1, t, 0⟩) := by
  rw [consumeOpt, normalizeEntry, consumeEntry]
  rw [if_neg (by simp)]
  rw [if_pos (by simpa using hp)]

theorem runConsumes_global_window (ts : List Nat) (t1 : Nat)
    (h : ∀ t ∈ ts, t < t1 + 60000) (k : Nat) :
    (runConsumes globalCfg (some ⟨k, t1, 0⟩) ts).2 = some ⟨k + ts.length, t1, 0⟩
    ∧ (k + ts.length ≤ 100 →
        (runConsumes globalCfg (some ⟨k, t1, 0⟩) ts).1 = List.replicate ts.length true) := by
  induction ts generalizing k with
  | nil => simp [runConsumes]
  | cons t ts ih =>
    have ht : t < t1 + 60000 := h t (List.mem_cons_self t ts)
    have hrest : ∀ u ∈ ts, u < t1 + 60000 := fun u hu => h u (List.mem_cons_of_mem t hu)
    have he := consumeOpt_global_entry k t1 t ht
    obtain ⟨ihA, ihB⟩ := ih hrest (k + 1)
    constructor
    · simp only [runConsumes, he, ihA, List.length_cons]
      have harith : k + 1 + ts.length = k + (ts.length + 1) := by omega
      rw [harith]
    · intro hbudget
      rw [List.length_cons] at hbudget
      have hok := consumeOpt_global_ok k t1 t ht (by omega)
      simp only [runConsumes, he, hok, ihB (by omega), List.length_cons, List.replicate_succ]

theorem set_ne_of_ne (l : List Char) (i : Nat) (c : Char) (hi : i < l.length)
    (hc : c ≠ l.get ⟨i, hi⟩) : l.set i c ≠ l := by
  induction l generalizing i with
  | nil => simp at hi
  | cons a as ih =>
    cases i with
    | zero =>
      intro h
      injection h with h1 _
      exact hc h1
    | succ n =>
      intro h
      injection h with _ h2
      exact ih n (by simpa using hi) hc h2

theorem mkSet_ne (s : String) (i : Nat) (c : Char) (hi : i < s.data.length)
    (hc : c ≠ s.data.get ⟨i, hi⟩) : String.mk (s.data.set i c) ≠ s := by
  intro h
  apply set_ne_of_ne s.data i c hi hc
  calc s.data.set i c = (String.mk (s.data.set i c)).data := rfl
    _ = s.data := by rw [h]

theorem mkSet_ne_empty (s : String) (i : Nat) (c : Char) (hi : i < s.data.length) :
    String.mk (s.data.set i c) ≠ "" := by
  intro h
  have h2 : (s.data.set i c).length = 0 := by
    have h3 : s.data.set i c = ("" : String).data := by rw [← h]
    rw [h3]
    rfl
  rw [List.length_set] at h2
  omega

end Gate

namespace Gate

theorem addBlocked_idem (b : String → Bool) (ip : String) :
    addBlocked (addBlocked b ip) ip = addBlocked b ip := by
  funext k
  by_cases hk : k = ip <;> simp [addBlocked, hk]

/-- C8: the blocklist is append-only for the process lifetime: `add` is
idempotent, and an IP blocked in some state is still blocked after any
sequence of core operations (issuance, gate, honeypot, reaper) — no
operation removes entries. -/
theorem blocklist_append_only (env : Env) :
    (∀ (b : String → Bool) (ip : String), addBlocked (addBlocked b ip) ip = addBlocked b ip)
    ∧ ∀ (s : ServerState) (ip : String) (ops : List Op),
        s.blocked ip = true → (runOps env s ops).blocked ip = true := by
  exact ⟨addBlocked_idem, fun s ip ops h => runOps_blocked_mono env ops s ip h⟩

/-- A state with one blocklisted IP, used to instantiate the append-only
theorem. -/
def sBlockedW : ServerState := { initState with blocked := fun k => k == "9.8.7.6" }

/-- Witness for C8 at a concrete state and operation sequence. -/
theorem blocklist_append_only_witness :
    (runOps envC sBlockedW
        [Op.reap 0, Op.honeypot "/api/data/raw" "GET" "1.1.1.1"]).blocked "9.8.7.6" = true :=
  (blocklist_append_only envC).2 sBlockedW "9.8.7.6"
    [Op.reap 0, Op.honeypot "/api/data/raw" "GET" "1.1.1.1"] (by decide)

/-- C9: in every state reachable from process start, a sessionId has an entry
in the session registry exactly when it has a per-session limiter instance:
issuance creates both together, the reaper deletes both together, and no
other operation changes either map's domain. -/
theorem registry_and_limiters_same_keys (env : Env) (ops : List Op) (sid : String) :
    (((runOps env initState ops).activeTokens sid).isSome)
      = (((runOps env initState ops).sessionLimiters sid).isSome) :=
  runOps_sessKeys env ops initState (fun _ => rfl) sid

/-- C1: a protected request bearing a valid, unexpired credential whose
session record exists but records a different `clientIp` is answered with
`securityViolation` (403) and the request's IP is blocklisted; afterwards,
every protected request from that IP that passes the global limiter — after
any further core operations, and whatever credential it presents — is
answered with `forbidden` (403). -/
theorem fingerprint_mismatch_bans_ip (env : Env) (now : Nat) (req : GateRequest)
    (s : ServerState) (tok sid : String) (info : SessionInfo)
    (hg : (consumeOpt globalCfg now (s.globalRL req.ip)).1 = true)
    (hb : s.blocked req.ip = false)
    (ht : tokenOrNone (extractToken req.authHeader req.cookie) = some tok)
    (hv : jwtVerifyStr env tok now = some sid)
    (hs : s.activeTokens sid = some info)
    (hip : info.clientIp ≠ req.ip) :
    (validateRequest env now req s).1 = .securityViolation
    ∧ ((validateRequest env now req s).2).blocked req.ip = true
    ∧ ∀ (ops : List Op) (now2 : Nat) (req2 : GateRequest),
        req2.ip = req.ip →
        (consumeOpt globalCfg now2
            ((runOps env ((validateRequest env now req s).2) ops).globalRL req2.ip)).1 = true →
        (validateRequest env now2 req2 (runOps env ((validateRequest env now req s).2) ops)).1
          = .forbidden := by
  obtain ⟨h1, h2⟩ := validateRequest_secViolation env now req s tok sid info hg hb ht hv hs hip
  have hblocked : ((validateRequest env now req s).2).blocked req.ip = true := by
    rw [h2, addBlocked]
    simp
  refine ⟨h1, hblocked, ?_⟩
  intro ops now2 req2 hip2 hg2
  apply validateRequest_forbidden env now2 req2 _ hg2
  rw [hip2]
  exact runOps_blocked_mono env ops _ req.ip hblocked

/-- Registry with one session bound to IP 1.2.3.4, for the fingerprint
witness. -/
def sW1 : ServerState :=
  { initState with
    activeTokens := fun k =>
      if k = "sidA" then some ⟨⟨"sidA", 1000000000, "jwt-secret"⟩, 0, "1.2.3.4", ""⟩ else none
    sessionLimiters := fun k => if k = "sidA" then some none else none }

/-- A protected request from 5.5.5.5 presenting sidA's valid credential. -/
def reqW1 : GateRequest :=
  ⟨"5.5.5.5", some "Bearer tokA", none, none, none, "/api/proxy/weather", "\x7b\x7d"⟩

/-- A second request from 5.5.5.5 with a different (fresh, valid) credential. -/
def reqW1b : GateRequest :=
  ⟨"5.5.5.5", some "Bearer tokB", none, none, none, "/api/proxy/weather", "\x7b\x7d"⟩

/-- Witness for C1: the mismatched request is refused with
`securityViolation` and the follow-up request from the same IP with a
different credential is `forbidden`. -/
theorem fingerprint_mismatch_bans_ip_witness :
    (validateRequest envC 7 reqW1 sW1).1 = .securityViolation
    ∧ (validateRequest envC 8 reqW1b
        (runOps envC ((validateRequest envC 7 reqW1 sW1).2) [])).1 = .forbidden := by
  have h := fingerprint_mismatch_bans_ip envC 7 reqW1 sW1 "tokA" "sidA"
    ⟨⟨"sidA", 1000000000, "jwt-secret"⟩, 0, "1.2.3.4", ""⟩
    (by decide) (by decide) (by decide) (by decide) (by decide) (by decide)
  exact ⟨h.1, h.2.2 [] 8 reqW1b (by decide) (by decide)⟩

/-- C3: a credential signed at millisecond time `t0` verifies (step 4) at
millisecond time `t` exactly while the current second is below the expiry
second `t0/1000 + 3600`; for a second-aligned `t0` this is exactly
`t < t0 + TTL`, with rejection at and after expiry.  The check never reads
the session registry: a token that fails verification yields `invalidToken`
for an arbitrary state. -/
theorem credential_expiry_boundary (sid secret : String) (t0 t : Nat) :
    ((jwtVerifyTok (jwtSign sid secret t0) secret t) = some sid ↔
      t / 1000 < t0 / 1000 + SESSION_TOKEN_EXPIRY)
    ∧ (t0 % 1000 = 0 →
        ((jwtVerifyTok (jwtSign sid secret t0) secret t) = some sid ↔ t < t0 + ttlMs))
    ∧ ∀ (env : Env) (now : Nat) (req : GateRequest) (s : ServerState) (tok : String),
        (consumeOpt globalCfg now (s.globalRL req.ip)).1 = true →
        s.blocked req.ip = false →
        tokenOrNone (extractToken req.authHeader req.cookie) = some tok →
        jwtVerifyStr env tok now = none →
        (validateRequest env now req s).1 = .invalidToken := by
  have hIff : (jwtVerifyTok (jwtSign sid secret t0) secret t) = some sid ↔
      t / 1000 < t0 / 1000 + SESSION_TOKEN_EXPIRY := by
    by_cases hc : t / 1000 < t0 / 1000 + SESSION_TOKEN_EXPIRY
    · simp [jwtVerifyTok, jwtSign, hc]
    · simp [jwtVerifyTok, jwtSign, hc]
  refine ⟨hIff, fun hmod => ?_, ?_⟩
  · rw [hIff]
    simp only [SESSION_TOKEN_EXPIRY, ttlMs]
    omega
  · intro env now req s tok hg hb ht hv
    exact validateRequest_invalidToken env now req s tok hg hb ht hv

/-- An expired-or-malformed-token request for the C3 witness. -/
def reqW3 : GateRequest :=
  ⟨"6.6.6.6", some "Bearer nope", none, none, none, "/api/proxy/weather", "\x7b\x7d"⟩

/-- Witness for C3: a token signed at 0 still verifies 1 ms before expiry,
and a non-verifying token string yields `invalidToken` at the gate. -/
theorem credential_expiry_boundary_witness :
    (jwtVerifyTok (jwtSign "s1" "k1" 0) "k1" 3599999 = some "s1")
    ∧ (validateRequest envC 5 reqW3 initState).1 = .invalidToken := by
  constructor
  · exact ((credential_expiry_boundary "s1" "k1" 0 3599999).2.1 (by decide)).mpr (by decide)
  · exact (credential_expiry_boundary "s1" "k1" 0 3599999).2.2 envC 5 reqW3 initState "nope"
      (by decide) (by decide) (by decide) (by decide)

end Gate

namespace Gate

/-- C4: from a fresh global-limiter key, 100 consumptions inside one rolling
60 s window all succeed, and a 101st request inside the window is refused by
the gate with `rateLimited` (429). -/
theorem global_limiter_hundred_then_429 (env : Env) (req : GateRequest) (s : ServerState)
    (t1 : Nat) (rest : List Nat) (t101 : Nat)
    (hfresh : s.globalRL req.ip = none)
    (hlen : rest.length = 99)
    (hrest : ∀ t ∈ rest, t < t1 + 60000)
    (h101 : t101 < t1 + 60000) :
    (runConsumes globalCfg (s.globalRL req.ip) (t1 :: rest)).1 = List.replicate 100 true
    ∧ (validateRequest env t101 req
        { s with globalRL := fun k =>
            if k = req.ip then (runConsumes globalCfg (s.globalRL req.ip) (t1 :: rest)).2
            else s.globalRL k }).1 = .rateLimited := by
  rw [hfresh]
  have hfreshC : consumeOpt globalCfg t1 none = (true, ⟨1, t1, 0⟩) :=
    consumeOpt_fresh globalCfg t1 (by simp [globalCfg])
  obtain ⟨hA, hB⟩ := runConsumes_global_window rest t1 hrest 1
  have hrun2 : (runConsumes globalCfg none (t1 :: rest)).2 = some ⟨100, t1, 0⟩ := by
    simp only [runConsumes, hfreshC, hA, hlen]
  constructor
  · simp only [runConsumes, hfreshC, hB (by omega), hlen]
    rfl
  · apply validateRequest_rl
    have hstate : ({ s with globalRL := fun k =>
        if k = req.ip then (runConsumes globalCfg none (t1 :: rest)).2 else s.globalRL k
          }).globalRL req.ip = (runConsumes globalCfg none (t1 :: rest)).2 := by
      simp
    rw [hstate, hrun2]
    exact consumeOpt_global_fail 100 t1 t101 h101 (by omega)

/-- The request used for the global-limiter witness. -/
def reqW4 : GateRequest :=
  ⟨"4.4.4.4", none, none, none, none, "/api/proxy/weather", "\x7b\x7d"⟩

/-- Witness for C4: 100 immediate consumptions all succeed and the 101st
request is rate limited. -/
theorem global_limiter_hundred_then_429_witness :
    (runConsumes globalCfg (initState.globalRL "4.4.4.4")
        (0 :: List.replicate 99 0)).1 = List.replicate 100 true
    ∧ (validateRequest envC 0 reqW4
        { initState with globalRL := fun k =>
            if k = reqW4.ip then (runConsumes globalCfg (initState.globalRL "4.4.4.4")
              (0 :: List.replicate 99 0)).2
            else initState.globalRL k }).1 = .rateLimited := by
  have h := global_limiter_hundred_then_429 envC reqW4 initState 0 (List.replicate 99 0) 0
    (by decide) (by decide)
    (by intro t htm; rw [List.eq_of_mem_replicate htm]; omega)
    (by omega)
  exact h

/-- C6: one run of the token-cleanup sweep removes exactly the session
records whose age exceeds the TTL, removing the per-session limiter of each
removed record and leaving the others untouched; a protected request naming
a reaped sessionId is then answered with `invalidSession`, even though its
credential still verifies. -/
theorem reaper_exactness_and_invalid_session (now : Nat) (s : ServerState) :
    (∀ sid info, (reapTokens now s).activeTokens sid = some info ↔
        (s.activeTokens sid = some info ∧ ¬ info.created + ttlMs < now))
    ∧ (∀ sid info, s.activeTokens sid = some info → info.created + ttlMs < now →
        (reapTokens now s).activeTokens sid = none
          ∧ (reapTokens now s).sessionLimiters sid = none)
    ∧ (∀ sid info, s.activeTokens sid = some info → ¬ info.created + ttlMs < now →
        (reapTokens now s).activeTokens sid = some info
          ∧ (reapTokens now s).sessionLimiters sid = s.sessionLimiters sid)
    ∧ ∀ (env : Env) (now2 : Nat) (req : GateRequest) (tok sid : String) (info : SessionInfo),
        s.activeTokens sid = some info → info.created + ttlMs < now →
        (consumeOpt globalCfg now2 ((reapTokens now s).globalRL req.ip)).1 = true →
        (reapTokens now s).blocked req.ip = false →
        tokenOrNone (extractToken req.authHeader req.cookie) = some tok →
        jwtVerifyStr env tok now2 = some sid →
        (validateRequest env now2 req (reapTokens now s)).1 = .invalidSession := by
  have hgone : ∀ sid info, s.activeTokens sid = some info → info.created + ttlMs < now →
      (reapTokens now s).activeTokens sid = none
        ∧ (reapTokens now s).sessionLimiters sid = none := by
    intro sid info hq hexp
    simp only [reapTokens]
    rw [hq]
    simp [hexp]
  refine ⟨?_, hgone, ?_, ?_⟩
  · intro sid info
    simp only [reapTokens]
    cases hq : s.activeTokens sid with
    | none => simp
    | some i0 =>
      by_cases hexp : i0.created + ttlMs < now
      · simp only [if_pos hexp]
        constructor
        · intro h
          exact absurd h (by simp)
        · rintro ⟨h1, h2⟩
          injection h1 with h1
          subst h1
          exact absurd hexp h2
      · simp only [if_neg hexp]
        constructor
        · intro h
          injection h with h1
          subst h1
          exact ⟨rfl, hexp⟩
        · rintro ⟨h1, h2⟩
          injection h1 with h1
          subst h1
          rfl
  · intro sid info hq hexp
    simp only [reapTokens]
    rw [hq]
    simp [hexp]
  · intro env now2 req tok sid info hq hexp hg hb ht hv
    exact validateRequest_invalidSession env now2 req (reapTokens now s) tok sid hg hb ht hv
      (hgone sid info hq hexp).1

/-- Registry holding sidA created at time 0, for the reaper witness. -/
def sW6 : ServerState :=
  { initState with
    activeTokens := fun k =>
      if k = "sidA" then some ⟨⟨"sidA", 1000000000, "jwt-secret"⟩, 0, "7.7.7.7", ""⟩ else none
    sessionLimiters := fun k => if k = "sidA" then some none else none }

/-- sidA's own still-verifying credential presented from the bound IP. -/
def reqW6 : GateRequest :=
  ⟨"7.7.7.7", some "Bearer tokA", none, none, none, "/api/proxy/weather", "\x7b\x7d"⟩

/-- Witness for C6: after a sweep at ttl+1 ms, the record and its limiter are
gone and the request is answered with `invalidSession` although the
credential still verifies. -/
theorem reaper_exactness_and_invalid_session_witness :
    ((reapTokens 3600001 sW6).activeTokens "sidA" = none
      ∧ (reapTokens 3600001 sW6).sessionLimiters "sidA" = none)
    ∧ (validateRequest envC 5 reqW6 (reapTokens 3600001 sW6)).1 = .invalidSession := by
  have h := reaper_exactness_and_invalid_session 3600001 sW6
  refine ⟨h.2.1 "sidA" ⟨⟨"sidA", 1000000000, "jwt-secret"⟩, 0, "7.7.7.7", ""⟩
    (by decide) (by decide), ?_⟩
  exact h.2.2.2 envC 5 reqW6 "tokA" "sidA" ⟨⟨"sidA", 1000000000, "jwt-secret"⟩, 0, "7.7.7.7", ""⟩
    (by decide) (by decide) (by decide) (by decide) (by decide) (by decide)

/-- The bad-referrer issuance request of the C7 counterexample. -/
def reqW7 : IssueRequest := ⟨"1.1.1.1", some "https://evil.example/", none⟩

/-- C7 counterexample: a bad-referrer issuance attempt is answered with
`invalidReferrer`, yet the auth-tier limiter state for the client IP has
changed — the handler consumes the auth budget before checking the
referrer, so the failed request does spend one point. -/
theorem invalid_referrer_consumes_auth_point :
    (issueSession envC 5 "sidX" reqW7 initState).1 = .invalidReferrer
    ∧ ((issueSession envC 5 "sidX" reqW7 initState).2).authRL "1.1.1.1" = some ⟨1, 5, 0⟩
    ∧ initState.authRL "1.1.1.1" = none := by
  decide

/-- C7 amended: a session-issuance request whose referrer lacks the trusted
origin substring fails with `invalidReferrer` (403), but only after one point
of the auth-tier limiter has been consumed for the client IP: the failed
request leaves the consumed entry in the limiter state. -/
theorem invalid_referrer_after_auth_consume (env : Env) (now : Nat) (sid : String)
    (req : IssueRequest) (s : ServerState)
    (ha : (consumeOpt authCfg now (s.authRL req.ip)).1 = true)
    (hr : jsIncludes (req.referrer.getD "") frontendDomain = false) :
    (issueSession env now sid req s).1 = .invalidReferrer
    ∧ ((issueSession env now sid req s).2).authRL req.ip
        = some (consumeOpt authCfg now (s.authRL req.ip)).2 := by
  constructor <;> simp [issueSession, ha, hr, setAuth]

/-- Witness for the amended C7 at a concrete request and state. -/
theorem invalid_referrer_after_auth_consume_witness :
    (issueSession envC 9 "sidY" ⟨"2.2.2.2", none, none⟩ initState).1 = .invalidReferrer
    ∧ ((issueSession envC 9 "sidY" ⟨"2.2.2.2", none, none⟩ initState).2).authRL "2.2.2.2"
        = some (consumeOpt authCfg 9 (initState.authRL "2.2.2.2")).2 :=
  invalid_referrer_after_auth_consume envC 9 "sidY" ⟨"2.2.2.2", none, none⟩ initState
    (by decide) (by decide)

end Gate

namespace Gate

/-- State in which IP 9.9.9.9 has already exhausted its global-limiter
window before hitting the honeypot. -/
def sW5 : ServerState :=
  { initState with globalRL := fun k => if k = "9.9.9.9" then some ⟨100, 0, 0⟩ else none }

/-- A protected request from the honeypot-banned IP 9.9.9.9. -/
def reqW5 : GateRequest :=
  ⟨"9.9.9.9", none, none, none, none, "/api/proxy/weather", "\x7b\x7d"⟩

/-- C5 counterexample: after a honeypot hit banned 9.9.9.9, a subsequent
protected request from that IP whose global-limiter window is exhausted is
answered with `rateLimited` (429), not `forbidden` — the global limiter runs
before the blocklist check. -/
theorem honeypot_ban_not_always_forbidden :
    ((honeypotHit "/api/data/raw" "GET" "9.9.9.9" sW5).2).blocked "9.9.9.9" = true
    ∧ (validateRequest envC 1 reqW5 ((honeypotHit "/api/data/raw" "GET" "9.9.9.9" sW5).2)).1
        = .rateLimited
    ∧ GateResult.rateLimited ≠ GateResult.forbidden := by
  decide

/-- C5 amended: a request of any HTTP method to a configured honeypot path
gets the generic success payload (HTTP 200) with no credential consulted,
idempotently adds the caller's IP to the blocklist, and afterwards every
protected request from that IP that passes the global limiter is answered
with `forbidden`. -/
theorem honeypot_ban_and_forbidden (env : Env) (endpoint method ip : String)
    (s : ServerState) (hep : endpoint ∈ HONEYPOT_ENDPOINTS) :
    (honeypotHit endpoint method ip s).1 = ⟨200, "status: ok"⟩
    ∧ (∀ method2, honeypotHit endpoint method2 ip s = honeypotHit endpoint method ip s)
    ∧ ((honeypotHit endpoint method ip s).2).blocked ip = true
    ∧ (∀ e2 m2, ((honeypotHit e2 m2 ip ((honeypotHit endpoint method ip s).2)).2).blocked
          = ((honeypotHit endpoint method ip s).2).blocked)
    ∧ ∀ (ops : List Op) (now2 : Nat) (req2 : GateRequest),
        req2.ip = ip →
        (consumeOpt globalCfg now2
            ((runOps env ((honeypotHit endpoint method ip s).2) ops).globalRL req2.ip)).1 = true →
        (validateRequest env now2 req2
            (runOps env ((honeypotHit endpoint method ip s).2) ops)).1 = .forbidden := by
  have hblocked : ((honeypotHit endpoint method ip s).2).blocked ip = true := by
    show addBlocked s.blocked ip ip = true
    simp [addBlocked]
  refine ⟨rfl, fun method2 => rfl, hblocked, ?_, ?_⟩
  · intro e2 m2
    show addBlocked (addBlocked s.blocked ip) ip = addBlocked s.blocked ip
    exact addBlocked_idem s.blocked ip
  · intro ops now2 req2 hip2 hg2
    apply validateRequest_forbidden env now2 req2 _ hg2
    rw [hip2]
    exact runOps_blocked_mono env ops _ ip hblocked

/-- A protected request from the IP banned in the C5 witness. -/
def reqW5b : GateRequest :=
  ⟨"3.3.3.3", none, none, none, none, "/api/proxy/weather", "\x7b\x7d"⟩

/-- Witness for the amended C5: a POST to a configured honeypot path gets
the generic success response, and the follow-up protected request from the
same IP is `forbidden`. -/
theorem honeypot_ban_and_forbidden_witness :
    (honeypotHit "/api/v1/internal/config" "POST" "3.3.3.3" initState).1 = ⟨200, "status: ok"⟩
    ∧ (validateRequest envC 2 reqW5b
        (runOps envC ((honeypotHit "/api/v1/internal/config" "POST" "3.3.3.3" initState).2)
          [])).1 = .forbidden := by
  have h := honeypot_ban_and_forbidden envC "/api/v1/internal/config" "POST" "3.3.3.3"
    initState (by decide)
  exact ⟨h.1, h.2.2.2.2 [] 2 reqW5b (by decide) (by decide)⟩

/-- A request with an empty (JS-falsy) Authorization header and a valid
session cookie, from the session's own IP. -/
def reqW10 : GateRequest :=
  ⟨"1.2.3.4", some "", some "tokA", none, none, "/api/proxy/weather", "\x7b\x7d"⟩

/-- C10 counterexample: the Authorization header is present (empty string),
which JS treats as falsy, so the gate falls back to the session cookie and
passes the request instead of failing with 401. -/
theorem empty_auth_header_cookie_fallback :
    reqW10.authHeader = some ""
    ∧ reqW10.cookie = some "tokA"
    ∧ tokenOrNone (extractToken reqW10.authHeader reqW10.cookie) = some "tokA"
    ∧ (validateRequest envC 7 reqW10 sW1).1 = .passed "sidA"
    ∧ GateResult.passed "sidA" ≠ GateResult.unauthenticated := by
  decide

/-- C10 amended: when a non-empty Authorization header is present the token
is taken exclusively from its second space-separated part — the cookie is
never consulted — and a non-empty header lacking a usable second part (e.g.
no space after the scheme) yields `unauthenticated` (401) whatever cookie
accompanies the request. -/
theorem nonempty_auth_header_exclusive (h : String) (hne : h ≠ "") :
    (∀ c1 c2 : Option String, extractToken (some h) c1 = extractToken (some h) c2)
    ∧ (∀ c : Option String, extractToken (some h) c = (jsSplitSpace h)[1]?)
    ∧ ∀ (env : Env) (now : Nat) (req : GateRequest) (s : ServerState),
        req.authHeader = some h →
        tokenOrNone ((jsSplitSpace h)[1]?) = none →
        (consumeOpt globalCfg now (s.globalRL req.ip)).1 = true →
        s.blocked req.ip = false →
        (validateRequest env now req s).1 = .unauthenticated := by
  have hext : ∀ c : Option String, extractToken (some h) c = (jsSplitSpace h)[1]? := by
    intro c
    simp [extractToken, hne]
  refine ⟨fun c1 c2 => by rw [hext c1, hext c2], hext, ?_⟩
  intro env now req s hha htok hg hb
  apply validateRequest_unauth env now req s hg hb
  rw [hha, hext, htok]

/-- Witness for the amended C10: header value `Bearer` with no space, next
to a valid cookie, still yields 401. -/
theorem nonempty_auth_header_exclusive_witness :
    (validateRequest envC 7
        ⟨"1.2.3.4", some "Bearer", some "tokA", none, none, "/api/proxy/weather", "\x7b\x7d"⟩
        sW1).1 = .unauthenticated :=
  (nonempty_auth_header_exclusive "Bearer" (by decide)).2.2 envC 7
    ⟨"1.2.3.4", some "Bearer", some "tokA", none, none, "/api/proxy/weather", "\x7b\x7d"⟩
    sW1 rfl (by decide) (by decide) (by decide)

end Gate

namespace Gate

/-- C2: a protected request that reaches the signature step computes
`HmacSHA256(timestamp + path + body + sessionId, API_SECRET)` and compares
the `X-Request-Signature` header against it: providing exactly the expected
signature passes, any other value — in particular any single-character
alteration of the correct signature — is answered with `invalidSignature`
(403), and with no signature header the check is skipped and the request
passes. -/
theorem signature_verification_behavior (env : Env) (now : Nat) (req : GateRequest)
    (s : ServerState) (tok sid : String) (info : SessionInfo)
    (hg : (consumeOpt globalCfg now (s.globalRL req.ip)).1 = true)
    (hb : s.blocked req.ip = false)
    (ht : tokenOrNone (extractToken req.authHeader req.cookie) = some tok)
    (hv : jwtVerifyStr env tok now = some sid)
    (hs : s.activeTokens sid = some info)
    (hip : info.clientIp = req.ip)
    (hsl : ∀ e, s.sessionLimiters sid = some e → (consumeOpt sessionCfg now e).1 = true) :
    ((validateRequest env now
        { req with xSignature := some (expectedSignature env req sid) } s).1 = .passed sid)
    ∧ (∀ sig : String, sig ≠ "" → sig ≠ expectedSignature env req sid →
        (validateRequest env now { req with xSignature := some sig } s).1 = .invalidSignature)
    ∧ (∀ (i : Nat) (c : Char) (hi : i < (expectedSignature env req sid).data.length),
        c ≠ (expectedSignature env req sid).data.get ⟨i, hi⟩ →
        (validateRequest env now
            { req with
              xSignature := some (String.mk ((expectedSignature env req sid).data.set i c)) }
            s).1 = .invalidSignature)
    ∧ ((validateRequest env now { req with xSignature := none } s).1 = .passed sid) := by
  have hbr : ∀ x : Option String,
      (validateRequest env now { req with xSignature := x } s).1
        = if signatureOk env { req with xSignature := x } sid then .passed sid
          else .invalidSignature := by
    intro x
    exact validateRequest_sigBranch env now { req with xSignature := x } s tok sid info
      hg hb ht hv hs hip hsl
  have hpartB : ∀ sig : String, sig ≠ "" → sig ≠ expectedSignature env req sid →
      (validateRequest env now { req with xSignature := some sig } s).1
        = .invalidSignature := by
    intro sig h1 h2
    rw [hbr (some sig)]
    have hfalse : signatureOk env { req with xSignature := some sig } sid = false := by
      simp only [signatureOk]
      rw [if_neg h1]
      simp only [decide_eq_false_iff_not]
      exact h2
    rw [hfalse]
    simp
  refine ⟨?_, hpartB, ?_, ?_⟩
  · rw [hbr (some (expectedSignature env req sid))]
    have htrue : signatureOk env
        { req with xSignature := some (expectedSignature env req sid) } sid = true := by
      by_cases hE : expectedSignature env req sid = ""
      · simp [signatureOk, hE]
      · simp only [signatureOk]
        rw [if_neg hE]
        simp [expectedSignature]
    rw [htrue]
    simp
  · intro i c hi hc
    exact hpartB (String.mk ((expectedSignature env req sid).data.set i c))
      (mkSet_ne_empty (expectedSignature env req sid) i c hi)
      (mkSet_ne (expectedSignature env req sid) i c hi hc)
  · rw [hbr none]
    simp [signatureOk]

/-- A signed request from sidA's own IP with a timestamp header, the C2
witness base (its `xSignature` field is overridden per conjunct). -/
def reqW2 : GateRequest :=
  ⟨"1.2.3.4", some "Bearer tokA", none, none, some "123", "/api/proxy/weather", "\x7b\x7d"⟩

/-- Witness for C2: the correct concrete signature passes, a wrong one is
refused, and omitting the header passes. -/
theorem signature_verification_behavior_witness :
    ((validateRequest envC 7
        { reqW2 with xSignature := some (expectedSignature envC reqW2 "sidA") } sW1).1
      = .passed "sidA")
    ∧ ((validateRequest envC 7 { reqW2 with xSignature := some "bad" } sW1).1
      = .invalidSignature)
    ∧ ((validateRequest envC 7 { reqW2 with xSignature := none } sW1).1 = .passed "sidA") := by
  have hsl : ∀ e, sW1.sessionLimiters "sidA" = some e →
      (consumeOpt sessionCfg 7 e).1 = true := by
    intro e he
    have h0 : sW1.sessionLimiters "sidA" = some none := by decide
    rw [h0] at he
    injection he with he
    subst he
    decide
  have h := signature_verification_behavior envC 7 reqW2 sW1 "tokA" "sidA"
    ⟨⟨"sidA", 1000000000, "jwt-secret"⟩, 0, "1.2.3.4", ""⟩
    (by decide) (by decide) (by decide) (by decide) (by decide) (by decide) hsl
  exact ⟨h.1, h.2.1 "bad" (by decide) (by decide), h.2.2.2⟩

end Gate
